import Mathlib

/-
Formal model of the WaypointAnalytics retrieval-and-aggregation pipeline
(src/PythonFiles/pull_data_and_analyze.py and src/PythonFiles/stats.py).

JSON records are shallowly embedded as structures whose fields are the
dictionary keys the source code touches; a key that may be absent is an
`Option` field whose `none` value models the absent key.  Python
`d.get(k, v)` becomes `field.getD v`; Python `d[k]` on a possibly absent
key becomes a `match` that produces an `Except` error (the `KeyError`).
Integer minor-unit money amounts are `Int`; the Python float division
`amount / 100` is modelled exactly as division in `Rat`.
-/

namespace Waypoint

/-- A monetary sub-object (for example `total_money`) of the Square JSON
payloads: the code reads it with `.get('amount', 0)`, so the `amount` key
itself may be absent. -/
structure Money where
  amount : Option Int
deriving DecidableEq

/-- A line item dictionary of an order.  The fields are exactly the keys
the source code accesses on a line item (`pull_data_and_analyze.py`:
`catalog_object_id`, `name`, `variation_name`, `quantity`,
`base_price_money`, `total_money` in `orders_to_dataframe`, and
`item_name` in `extract_order_items`); an absent key is `none`.
`quantity` is kept as the JSON string the API delivers, since the code
converts it with `int(...)`. -/
structure LineItem where
  catalog_object_id : Option String
  name : Option String
  item_name : Option String
  variation_name : Option String
  quantity : Option String
  base_price_money : Option Money
  total_money : Option Money
deriving DecidableEq

/-- An order dictionary, restricted to the keys the code accesses. -/
structure Order where
  id : Option String
  location_id : Option String
  created_at : Option String
  updated_at : Option String
  state : Option String
  line_items : Option (List LineItem)
  total_money : Option Money
deriving DecidableEq

/-- The numeric value of a decimal digit character. -/
def digitVal (c : Char) : Option Nat :=
  if '0' ≤ c ∧ c ≤ '9' then some (c.toNat - '0'.toNat) else none

/-- Accumulate decimal digits left to right; any non-digit fails. -/
def digitsAux : List Char → Nat → Option Nat
  | [], acc => some acc
  | c :: cs, acc =>
    match digitVal c with
    | none => none
    | some d => digitsAux cs (acc * 10 + d)

/-- Python `int(s)` on a decimal string (an optional minus sign followed
by at least one digit); `none` models the `ValueError` raised on any
other string. -/
def pyInt (s : String) : Option Int :=
  match s.data with
  | [] => none
  | '-' :: cs =>
    if cs.isEmpty then none else (digitsAux cs 0).map (fun n => -(n : Int))
  | cs => (digitsAux cs 0).map (fun n => (n : Int))

/-- Inner loop of `extract_order_items` (pull_data_and_analyze.py lines
172-175): for each line item read `item['item_name']` (a plain indexing
that raises `KeyError` when the key is absent), read
`int(item.get('quantity', '1'))`, and extend the per-order list with the
name repeated `quantity` times. -/
def items_of_line_items : List LineItem → Except String (List String)
  | [] => Except.ok []
  | item :: rest =>
    match item.item_name with
    | none => Except.error "KeyError: item_name"
    | some nm =>
      match pyInt (item.quantity.getD "1") with
      | none => Except.error "ValueError: invalid literal for int"
      | some q =>
        match items_of_line_items rest with
        | Except.error e => Except.error e
        | Except.ok tl => Except.ok (List.replicate q.toNat nm ++ tl)

/-- `extract_order_items(orders)` (pull_data_and_analyze.py lines
166-178): build the per-order expanded item lists and keep only the
non-empty ones.  An uncaught Python exception is an `Except.error`. -/
def extract_order_items : List Order → Except String (List (List String))
  | [] => Except.ok []
  | o :: rest =>
    match items_of_line_items (o.line_items.getD []) with
    | Except.error e => Except.error e
    | Except.ok items =>
      match extract_order_items rest with
      | Except.error e => Except.error e
      | Except.ok tl => Except.ok (if items.isEmpty then tl else items :: tl)

/-- `d.get('X', {}).get('amount', 0)` on an optional money object. -/
def amount_or_zero (m : Option Money) : Int :=
  (m.bind Money.amount).getD 0

/-- Minor units to major units: the source's `... / 100`, taken in `Rat`. -/
def to_major (n : Int) : Rat :=
  (n : Rat) / 100

/-- One row of the flattened order table produced by
`orders_to_dataframe`.  `base_price` is `none` exactly on the fallback
rows the code emits for orders without line items (those rows store
Python `None` there). -/
structure TransactionRow where
  order_id : Option String
  location_id : Option String
  created_at : Option String
  updated_at : Option String
  state : Option String
  item_id : Option String
  item_name : Option String
  variation_name : Option String
  quantity : Option String
  base_price : Option Rat
  total_money : Rat
deriving DecidableEq

/-- The record built for one line item of one order
(pull_data_and_analyze.py lines 194-208). -/
def item_record (order : Order) (item : LineItem) : TransactionRow :=
  { order_id := order.id
    location_id := order.location_id
    created_at := order.created_at
    updated_at := order.updated_at
    state := order.state
    item_id := item.catalog_object_id
    item_name := item.name
    variation_name := item.variation_name
    quantity := item.quantity
    base_price := some (to_major (amount_or_zero item.base_price_money))
    total_money := to_major (amount_or_zero item.total_money) }

/-- The fallback record built for an order without line items
(pull_data_and_analyze.py lines 209-225). -/
def empty_order_record (order : Order) : TransactionRow :=
  { order_id := order.id
    location_id := order.location_id
    created_at := order.created_at
    updated_at := order.updated_at
    state := order.state
    item_id := none
    item_name := none
    variation_name := none
    quantity := none
    base_price := none
    total_money := to_major (amount_or_zero order.total_money) }

/-- The records one order contributes to the data frame: one per line
item when `line_items` is non-empty (Python truthiness of the list),
otherwise the single fallback record. -/
def order_records (order : Order) : List TransactionRow :=
  let line_items := order.line_items.getD []
  if line_items.isEmpty then [empty_order_record order]
  else line_items.map (item_record order)

/-- `orders_to_dataframe(orders)` (pull_data_and_analyze.py lines
181-227): the flat rows, in order of the orders and of each order's line
items. -/
def orders_to_dataframe : List Order → List TransactionRow
  | [] => []
  | o :: rest => order_records o ++ orders_to_dataframe rest

/-- Python truthiness of an optional string (`if cursor:` /
`if begin_time and end_time:`): `None` and the empty string are falsy. -/
def pyTruthy : Option String → Bool
  | none => false
  | some s => s != ""

/-- The JSON body of one `POST /v2/orders/search` request, restricted to
the keys `retrieve_all_orders` sets (pull_data_and_analyze.py lines
87-107): the location filter, the fixed page size, the optional
date-range filter, and the cursor key that is included only when the
held cursor is truthy. -/
structure SearchRequest where
  location_ids : List String
  limit : Nat
  query : Option (String × String)
  cursor : Option String
deriving DecidableEq

/-- The request body built at the top of each loop iteration. -/
def mkBody (loc : String) (b e : Option String) (c : Option String) : SearchRequest :=
  { location_ids := [loc]
    limit := 500
    query := if pyTruthy b && pyTruthy e then some (b.getD "", e.getD "") else none
    cursor := if pyTruthy c then c else none }

/-- One stubbed response of the search endpoint: the HTTP status, the
optional `orders` key of the JSON body, and the optional `cursor` key.
The order payloads themselves are opaque to the retrieval loop. -/
structure Page (α : Type) where
  status : Nat
  orders : Option (List α)
  cursor : Option String
deriving DecidableEq

/-- The `while True:` loop of `retrieve_all_orders`
(pull_data_and_analyze.py lines 85-124), run against a finite stub of
responses (one consumed per request).  It returns the sequence of
request bodies issued and either the accumulated orders or the uncaught
exception.  A successful response extends the accumulator, then
`print(orders[-1])` raises `IndexError` when the accumulator is empty;
otherwise the loop continues exactly when the new cursor is truthy.  A
non-200 status breaks out of the loop and the accumulator is returned. -/
def retrieve_loop {α : Type} (loc : String) (b e : Option String) :
    List (Page α) → Option String → List α → List SearchRequest × Except String (List α)
  | [], _, _ => ([], Except.error "fetch stub exhausted")
  | p :: rest, cursor, acc =>
    let req := mkBody loc b e cursor
    if p.status = 200 then
      let acc2 := acc ++ p.orders.getD []
      if acc2.isEmpty then
        ([req], Except.error "IndexError: list index out of range")
      else if pyTruthy p.cursor then
        let next := retrieve_loop loc b e rest p.cursor acc2
        (req :: next.1, next.2)
      else
        ([req], Except.ok acc2)
    else
      ([req], Except.ok acc)

/-- `retrieve_all_orders(location_id, begin_time, end_time)` run against
a response stub: the loop starts with no cursor and an empty
accumulator. -/
def retrieve_all_orders {α : Type} (loc : String) (b e : Option String)
    (stub : List (Page α)) : List SearchRequest × Except String (List α) :=
  retrieve_loop loc b e stub none []

/-- The orders carried by a list of pages, in page order
(`orders.extend(result.get('orders', []))` accumulated). -/
def pagesOrders {α : Type} (pages : List (Page α)) : List α :=
  pages.flatMap (fun p => p.orders.getD [])

/-- A page on which the loop takes the success branch and keeps looping:
status 200, a truthy continuation cursor, and at least one order (so
that `print(orders[-1])` does not raise). -/
def goodPage {α : Type} (p : Page α) : Prop :=
  p.status = 200 ∧ pyTruthy p.cursor = true ∧ (p.orders.getD []).isEmpty = false

/-- The request bodies the loop issues while consuming the given pages,
starting from held cursor `c`: each page's response cursor becomes the
cursor of the next request. -/
def reqTrace {α : Type} (loc : String) (b e : Option String) :
    Option String → List (Page α) → List SearchRequest
  | _, [] => []
  | c, p :: ps => mkBody loc b e c :: reqTrace loc b e p.cursor ps

/-- The cursor held after consuming the given pages, starting from `c`. -/
def chainCursor {α : Type} (c : Option String) (pages : List (Page α)) : Option String :=
  pages.foldl (fun _ p => p.cursor) c

/-- `itertools.combinations(s, 2)` on the elements of `s` in their given
enumeration order: all pairs `(s[i], s[j])` with `i < j`. -/
def combinations2 : List String → List (String × String)
  | [] => []
  | x :: xs => xs.map (fun y => (x, y)) ++ combinations2 xs

/-- An admissible enumeration of a Python `set`: applied to the list the
set is built from, it yields each distinct element exactly once, in an
order CPython does not specify (it depends on hashing).  Every behaviour
of `set(items)` iteration is some `SetEnum`. -/
def SetEnum (σ : List String → List String) : Prop :=
  ∀ l : List String, (σ l).Nodup ∧ ∀ x : String, x ∈ σ l ↔ x ∈ l

/-- One admissible set enumeration: the distinct elements in first
occurrence order. -/
def dedupEnum (l : List String) : List String :=
  l.dedup

/-- The item-name pairs one order contributes in `analyze_pairs`
(stats.py lines 25-28): nothing unless the order's item list has at
least two entries, otherwise `combinations(set(items_in_order), 2)`
under set enumeration `σ`. -/
def pairsOfOrder (σ : List String → List String) (items : List String) :
    List (String × String) :=
  if 2 ≤ items.length then combinations2 (σ items) else []

/-- The keys of `df.groupby('order_id')` (stats.py line 17): the
distinct non-null order ids.  (pandas sorts the group keys; the counts
below do not depend on the key order, so first-occurrence order is
used.) -/
def orderIds (df : List TransactionRow) : List String :=
  (df.filterMap TransactionRow.order_id).dedup

/-- `group['item_name'].dropna().tolist()` for the group of one order id
(stats.py line 22): the non-null item names of that order's rows, in row
order. -/
def groupItems (df : List TransactionRow) (oid : String) : List String :=
  (df.filter (fun r => r.order_id == some oid)).filterMap TransactionRow.item_name

/-- The value of the `item_pairs` counter built by `analyze_pairs`
(stats.py lines 12-28) at key `p`, for set enumeration `σ`: each order
group contributes the number of occurrences of `p` in its combination
list. -/
def analyze_pairs_count (σ : List String → List String)
    (df : List TransactionRow) (p : String × String) : Nat :=
  ((orderIds df).map (fun oid => (pairsOfOrder σ (groupItems df oid)).count p)).sum

/-- The value of the `item_pairs` counter built by the script-level loop
of pull_data_and_analyze.py (lines 268-272) at key `p`: it runs on the
transaction lists directly and has no length guard
(`combinations` of fewer than two elements is empty anyway). -/
def item_pairs_count (σ : List String → List String)
    (transactions : List (List String)) (p : String × String) : Nat :=
  (transactions.map (fun items => (combinations2 (σ items)).count p)).sum

/-- Both orientations of an unordered pair of names summed: the total
weight the counter assigns to the unordered pair of `A` and `B`. -/
def unordered_pairs_count (σ : List String → List String)
    (transactions : List (List String)) (A B : String) : Nat :=
  item_pairs_count σ transactions (A, B) + item_pairs_count σ transactions (B, A)

/-- The number of transactions containing both names (as distinct
names): the specification-level co-occurrence count of the unordered
pair of `A` and `B`. -/
def co_occurrences (transactions : List (List String)) (A B : String) : Nat :=
  transactions.countP (fun items => decide (A ∈ items ∧ B ∈ items ∧ A ≠ B))

/-- One row of the pair table `pairs_df` (stats.py line 31): the tuple
key of the counter and its count. -/
structure PairRow where
  pair : String × String
  item_count : Nat
deriving DecidableEq

/-- `contains_latte(pair)` (stats.py lines 47-50). -/
def contains_latte (p : String × String) : Bool :=
  p.1 == "Latte" || p.2 == "Latte"

/-- `ensure_latte_first(pair)` (stats.py lines 39-44): swap the tuple
when its second component is `'Latte'`. -/
def ensure_latte_first (p : String × String) : String × String :=
  if p.2 == "Latte" then (p.2, p.1) else p

/-- `pairs_df['pair'] = pairs_df['pair'].apply(ensure_latte_first)`
(stats.py line 263): the canonicalization applied to every row's pair,
leaving each row's count untouched. -/
def apply_ensure_latte_first (df : List PairRow) : List PairRow :=
  df.map (fun r => { pair := ensure_latte_first r.pair, item_count := r.item_count })

/-- `split_latte_pairs(df)` (stats.py lines 53-61): the rows whose pair
contains `'Latte'` and the rows whose pair does not, both in original
row order. -/
def split_latte_pairs (df : List PairRow) : List PairRow × List PairRow :=
  (df.filter (fun r => contains_latte r.pair),
   df.filter (fun r => !contains_latte r.pair))

/-- The unordered pair of names a tuple key denotes, as a two-element
multiset: the identity of an `ItemPair` in the specification's data
model. -/
def pairMultiset (p : String × String) : Multiset String :=
  {p.1, p.2}

/-- A row of the table fed to `analyze_time_of_day`, reduced to the one
column it reads: the `created_at` timestamp as parsed by
`pd.to_datetime(..., errors='coerce')` (stats.py line 259), where `none`
is the `NaT` a parse failure coerces to.  `T` is the abstract datetime
type. -/
structure TimeRow (T : Type) where
  created_at : Option T

/-- `pd.to_datetime(s, errors='coerce')` for one cell: a missing cell or
a parse failure yields the missing value, never an exception. -/
def to_datetime_coerce {T : Type} (parse : String → Option T) (s : Option String) :
    Option T :=
  s.bind parse

/-- `created_at.dt.tz_convert('US/Eastern')` for one row (stats.py line
66): `NaT` stays missing, `tz` is the abstract timezone conversion. -/
def created_at_et {T : Type} (tz : T → T) (r : TimeRow T) : Option T :=
  r.created_at.map tz

/-- The `time_et` column (`strftime('%H:%M')`, stats.py line 69): `NaT`
becomes a missing label. -/
def time_et {T : Type} (tz : T → T) (hm : T → String) (r : TimeRow T) : Option String :=
  (created_at_et tz r).map hm

/-- The `day_of_week` column (`dt.day_name()`, stats.py line 72). -/
def day_of_week {T : Type} (tz : T → T) (dn : T → String) (r : TimeRow T) : Option String :=
  (created_at_et tz r).map dn

/-- The `year_et` column (`dt.year`, stats.py line 75). -/
def year_et {T : Type} (tz : T → T) (yr : T → Int) (r : TimeRow T) : Option Int :=
  (created_at_et tz r).map yr

/-- `df.groupby('time_et').size()` at key `k` (stats.py line 78): the
number of rows whose (non-missing) label equals `k`; pandas drops
missing keys from the grouping. -/
def purchases_by_time {T : Type} (tz : T → T) (hm : T → String)
    (df : List (TimeRow T)) (k : String) : Nat :=
  df.countP (fun r => time_et tz hm r == some k)

/-- `df.groupby(['day_of_week', 'time_et']).size()` at key `k`
(stats.py line 81): rows with any missing key component are dropped. -/
def purchases_td {T : Type} (tz : T → T) (hm : T → String) (dn : T → String)
    (df : List (TimeRow T)) (k : String × String) : Nat :=
  df.countP (fun r => day_of_week tz dn r == some k.1 && time_et tz hm r == some k.2)

/-- `df.groupby(['year_et', 'day_of_week', 'time_et']).size()` at key
`k` (stats.py line 84). -/
def purchases_tdy {T : Type} (tz : T → T) (hm : T → String) (dn : T → String)
    (yr : T → Int) (df : List (TimeRow T)) (k : Int × String × String) : Nat :=
  df.countP (fun r =>
    year_et tz yr r == some k.1 && day_of_week tz dn r == some k.2.1 &&
      time_et tz hm r == some k.2.2)

/-- The first line item of the specification scenario, shaped as the
Square API (and the rest of this repository) shapes line items: the
display name is under the key `name`, there is no `item_name` key. -/
def latte_item : LineItem :=
  { catalog_object_id := none
    name := some "Latte"
    item_name := none
    variation_name := none
    quantity := some "2"
    base_price_money := none
    total_money := none }

/-- The second line item of the specification scenario. -/
def muffin_item : LineItem :=
  { latte_item with name := some "Muffin", quantity := some "1" }

/-- The scenario order `o1` with line items Latte x2 and Muffin x1. -/
def order_o1 : Order :=
  { id := some "o1"
    location_id := none
    created_at := none
    updated_at := none
    state := none
    line_items := some [latte_item, muffin_item]
    total_money := none }

/-- The scenario order with its line-item names stored under the key
`extract_order_items` actually reads (`item_name`): the input on which
the code produces the output the specification describes. -/
def order_o1_item_name_keyed : Order :=
  { order_o1 with
    line_items := some
      [{ latte_item with item_name := some "Latte" },
       { muffin_item with item_name := some "Muffin" }] }

/-- An order with no `line_items` key and a total of 250 minor units,
used to instantiate the zero-line-item row shape. -/
def order_no_items : Order :=
  { id := some "o9"
    location_id := some "L1"
    created_at := some "2024-09-01T04:30:00Z"
    updated_at := none
    state := some "COMPLETED"
    line_items := none
    total_money := some { amount := some 250 } }

deriving instance DecidableEq for Except

instance {α : Type} (p : Page α) : Decidable (goodPage p) := by
  unfold goodPage
  infer_instance

/-- A row of the flat order table carrying just an order id and an item
name (all other columns empty), used to build concrete pair-counting
inputs. -/
def pair_input_row (oid iname : String) : TransactionRow :=
  { order_id := some oid
    location_id := none
    created_at := none
    updated_at := none
    state := none
    item_id := none
    item_name := some iname
    variation_name := none
    quantity := none
    base_price := none
    total_money := 0 }

/-- Two orders over the same two items listed in opposite row orders:
under first-occurrence set enumeration their tuple keys come out in
opposite orientations. -/
def df_two_orientations : List TransactionRow :=
  [pair_input_row "o1" "A", pair_input_row "o1" "B",
   pair_input_row "o2" "B", pair_input_row "o2" "A"]

/-- A concrete pair table with anchored and non-anchored rows. -/
def sample_pair_table : List PairRow :=
  [{ pair := ("Latte", "Muffin"), item_count := 7 },
   { pair := ("Scone", "Tea"), item_count := 4 },
   { pair := ("Mocha", "Latte"), item_count := 2 }]

/-- Claim C1 (code bug).  On the specification's scenario order, whose
line items carry their display name under the JSON key `name` (as the
Square API delivers them and as `orders_to_dataframe` and
`get_orders_from_payment` in the same file read them),
`extract_order_items` raises `KeyError('item_name')` instead of
returning the expansion `[["Latte", "Latte", "Muffin"]]`; the expected
expansion appears only when the names are stored under the `item_name`
key the code actually indexes. -/
theorem c1_extract_order_items_keyerror :
    extract_order_items [order_o1] = Except.error "KeyError: item_name"
      ∧ extract_order_items [order_o1_item_name_keyed]
          = Except.ok [["Latte", "Latte", "Muffin"]] :=
  ⟨rfl, by decide⟩

/-- The flattener distributes over appending order lists. -/
theorem orders_to_dataframe_append (xs ys : List Order) :
    orders_to_dataframe (xs ++ ys) = orders_to_dataframe xs ++ orders_to_dataframe ys := by
  induction xs with
  | nil => rfl
  | cons o rest ih => simp [orders_to_dataframe, ih]

/-- Claim C3.  An order with zero line items contributes exactly one row
to the flat table, in place, with all item-level fields null and the
row's `total_money` equal to the order's own `total_money.amount`
divided by 100; a missing monetary field defaults to 0 minor units. -/
theorem c3_zero_line_items_single_row (pre post : List Order) (order : Order)
    (h : order.line_items.getD [] = []) :
    orders_to_dataframe (pre ++ order :: post)
      = orders_to_dataframe pre
        ++ { order_id := order.id, location_id := order.location_id,
             created_at := order.created_at, updated_at := order.updated_at,
             state := order.state, item_id := none, item_name := none,
             variation_name := none, quantity := none, base_price := none,
             total_money := (amount_or_zero order.total_money : Rat) / 100 }
          :: orders_to_dataframe post
    ∧ (order.total_money = none → (amount_or_zero order.total_money : Rat) / 100 = 0) := by
  constructor
  · have hsplit : orders_to_dataframe (pre ++ order :: post)
        = orders_to_dataframe pre ++ (order_records order ++ orders_to_dataframe post) := by
      rw [orders_to_dataframe_append]; rfl
    rw [hsplit]
    simp [order_records, h, empty_order_record, to_major]
  · intro h0
    simp [amount_or_zero, h0]

/-- Witness for C3 at a concrete order without line items. -/
theorem c3_zero_line_items_single_row_witness :
    orders_to_dataframe [order_no_items]
      = [{ order_id := some "o9", location_id := some "L1",
           created_at := some "2024-09-01T04:30:00Z", updated_at := none,
           state := some "COMPLETED", item_id := none, item_name := none,
           variation_name := none, quantity := none, base_price := none,
           total_money := (250 : Rat) / 100 }] := by
  simpa [orders_to_dataframe, order_no_items, amount_or_zero] using
    (c3_zero_line_items_single_row [] [] order_no_items rfl).1

/-- Claim C4.  An order with a non-empty line-item list contributes one
row per line item, in place and in line-item order, each row carrying
the order-level fields next to that item's fields, with
`base_price_money.amount` and `total_money.amount` divided by 100 and a
missing monetary field defaulting to 0 minor units before the
division. -/
theorem c4_one_row_per_line_item (pre post : List Order) (order : Order)
    (items : List LineItem) (h : order.line_items.getD [] = items)
    (hne : items.isEmpty = false) :
    (orders_to_dataframe (pre ++ order :: post)
      = orders_to_dataframe pre
        ++ items.map (fun item =>
            { order_id := order.id, location_id := order.location_id,
              created_at := order.created_at, updated_at := order.updated_at,
              state := order.state, item_id := item.catalog_object_id,
              item_name := item.name, variation_name := item.variation_name,
              quantity := item.quantity,
              base_price := some ((amount_or_zero item.base_price_money : Rat) / 100),
              total_money := (amount_or_zero item.total_money : Rat) / 100 })
        ++ orders_to_dataframe post)
    ∧ (orders_to_dataframe (pre ++ order :: post)).length
        = (orders_to_dataframe pre).length + items.length + (orders_to_dataframe post).length
    ∧ amount_or_zero none = 0 := by
  have hsplit : orders_to_dataframe (pre ++ order :: post)
      = orders_to_dataframe pre ++ (order_records order ++ orders_to_dataframe post) := by
    rw [orders_to_dataframe_append]; rfl
  have hrec : order_records order
      = items.map (fun item =>
          { order_id := order.id, location_id := order.location_id,
            created_at := order.created_at, updated_at := order.updated_at,
            state := order.state, item_id := item.catalog_object_id,
            item_name := item.name, variation_name := item.variation_name,
            quantity := item.quantity,
            base_price := some ((amount_or_zero item.base_price_money : Rat) / 100),
            total_money := (amount_or_zero item.total_money : Rat) / 100 }) := by
    simp [order_records, h, hne, item_record, to_major]
  refine ⟨by rw [hsplit, hrec, List.append_assoc], ?_, rfl⟩
  rw [hsplit, hrec]
  simp [Nat.add_comm, Nat.add_assoc, Nat.add_left_comm]

/-- Witness for C4 at the scenario order with two line items. -/
theorem c4_one_row_per_line_item_witness :
    orders_to_dataframe [order_o1]
      = [{ order_id := some "o1", location_id := none, created_at := none,
           updated_at := none, state := none, item_id := none,
           item_name := some "Latte", variation_name := none,
           quantity := some "2", base_price := some ((0 : Rat) / 100),
           total_money := (0 : Rat) / 100 },
         { order_id := some "o1", location_id := none, created_at := none,
           updated_at := none, state := none, item_id := none,
           item_name := some "Muffin", variation_name := none,
           quantity := some "1", base_price := some ((0 : Rat) / 100),
           total_money := (0 : Rat) / 100 }] := by
  simpa [orders_to_dataframe, order_o1, latte_item, muffin_item, amount_or_zero] using
    (c4_one_row_per_line_item [] [] order_o1 [latte_item, muffin_item] rfl rfl).1

/-- Loop step on a non-success response: log and break, returning the
accumulator. -/
theorem retrieve_loop_cons_err {α : Type} (loc : String) (b e : Option String)
    (p : Page α) (rest : List (Page α)) (c : Option String) (acc : List α)
    (h : p.status ≠ 200) :
    retrieve_loop loc b e (p :: rest) c acc = ([mkBody loc b e c], Except.ok acc) := by
  simp [retrieve_loop, h]

/-- Loop step on a successful response when the accumulator stays empty:
`print(orders[-1])` raises. -/
theorem retrieve_loop_cons_indexerror {α : Type} (loc : String) (b e : Option String)
    (p : Page α) (rest : List (Page α)) (c : Option String) (acc : List α)
    (h : p.status = 200) (hemp : (acc ++ p.orders.getD []).isEmpty = true) :
    retrieve_loop loc b e (p :: rest) c acc
      = ([mkBody loc b e c], Except.error "IndexError: list index out of range") := by
  simp [retrieve_loop, h, hemp]

/-- Loop step on a successful response with a truthy new cursor: record
the request and keep looping on the extended accumulator. -/
theorem retrieve_loop_cons_continue {α : Type} (loc : String) (b e : Option String)
    (p : Page α) (rest : List (Page α)) (c : Option String) (acc : List α)
    (h : p.status = 200) (hne : (acc ++ p.orders.getD []).isEmpty = false)
    (hcur : pyTruthy p.cursor = true) :
    retrieve_loop loc b e (p :: rest) c acc
      = (mkBody loc b e c
            :: (retrieve_loop loc b e rest p.cursor (acc ++ p.orders.getD [])).1,
         (retrieve_loop loc b e rest p.cursor (acc ++ p.orders.getD [])).2) := by
  simp [retrieve_loop, h, hne, hcur]

/-- Loop step on a successful response with a falsy new cursor: no more
pages, return the extended accumulator. -/
theorem retrieve_loop_cons_stop {α : Type} (loc : String) (b e : Option String)
    (p : Page α) (rest : List (Page α)) (c : Option String) (acc : List α)
    (h : p.status = 200) (hne : (acc ++ p.orders.getD []).isEmpty = false)
    (hcur : pyTruthy p.cursor = false) :
    retrieve_loop loc b e (p :: rest) c acc
      = ([mkBody loc b e c], Except.ok (acc ++ p.orders.getD [])) := by
  simp [retrieve_loop, h, hne, hcur]

/-- Consuming a prefix of pages that all succeed, carry orders and a
truthy cursor: the loop issues their request trace, accumulates their
orders, threads the last cursor, and continues on the remaining stub. -/
theorem retrieve_loop_goodPages {α : Type} (loc : String) (b e : Option String) :
    ∀ (good tail : List (Page α)) (c : Option String) (acc : List α),
      (∀ p ∈ good, goodPage p) →
      retrieve_loop loc b e (good ++ tail) c acc
        = (reqTrace loc b e c good
              ++ (retrieve_loop loc b e tail (chainCursor c good) (acc ++ pagesOrders good)).1,
           (retrieve_loop loc b e tail (chainCursor c good) (acc ++ pagesOrders good)).2) := by
  intro good
  induction good with
  | nil =>
    intro tail c acc _
    simp [reqTrace, chainCursor, pagesOrders]
  | cons p ps ih =>
    intro tail c acc hg
    obtain ⟨h200, hcur, hord⟩ := hg p (List.mem_cons_self p ps)
    have hne : (acc ++ p.orders.getD []).isEmpty = false := by
      have : p.orders.getD [] ≠ [] := by
        simpa using hord
      simp [List.append_eq_nil]
      intro _
      exact fun hx => this hx
    have hstep := retrieve_loop_cons_continue loc b e p (ps ++ tail) c acc h200 hne hcur
    have hps : ∀ q ∈ ps, goodPage q := fun q hq => hg q (List.mem_cons_of_mem p hq)
    rw [List.cons_append, hstep, ih tail p.cursor (acc ++ p.orders.getD []) hps]
    simp [reqTrace, chainCursor, pagesOrders, List.append_assoc]

/-- Length of the request trace: one request per consumed page. -/
theorem reqTrace_length {α : Type} (loc : String) (b e : Option String) :
    ∀ (c : Option String) (pages : List (Page α)),
      (reqTrace loc b e c pages).length = pages.length := by
  intro c pages
  induction pages generalizing c with
  | nil => rfl
  | cons p ps ih => simp [reqTrace, ih]

/-- The request trace of `pages ++ [p]`: the final request carries the
cursor chained through `pages`. -/
theorem reqTrace_append_one {α : Type} (loc : String) (b e : Option String) :
    ∀ (pages : List (Page α)) (c : Option String) (p : Page α),
      reqTrace loc b e c (pages ++ [p])
        = reqTrace loc b e c pages ++ [mkBody loc b e (chainCursor c pages)] := by
  intro pages
  induction pages with
  | nil => intro c p; simp [reqTrace, chainCursor]
  | cons q qs ih => intro c p; simp [reqTrace, chainCursor, ih]

/-- Every request body the loop ever issues has page limit 500 and the
single-location filter. -/
theorem retrieve_loop_limit {α : Type} (loc : String) (b e : Option String) :
    ∀ (stub : List (Page α)) (c : Option String) (acc : List α),
      ∀ r ∈ (retrieve_loop loc b e stub c acc).1,
        r.limit = 500 ∧ r.location_ids = [loc] := by
  intro stub
  induction stub with
  | nil => intro c acc r hr; simp [retrieve_loop] at hr
  | cons p ps ih =>
    intro c acc r hr
    by_cases h200 : p.status = 200
    · by_cases hemp : (acc ++ p.orders.getD []).isEmpty = true
      · rw [retrieve_loop_cons_indexerror loc b e p ps c acc h200 hemp] at hr
        simp at hr
        simp [hr, mkBody]
      · have hne : (acc ++ p.orders.getD []).isEmpty = false := by
          simpa using hemp
        by_cases hcur : pyTruthy p.cursor = true
        · rw [retrieve_loop_cons_continue loc b e p ps c acc h200 hne hcur] at hr
          rcases List.mem_cons.mp hr with h | h
          · simp [h, mkBody]
          · exact ih p.cursor (acc ++ p.orders.getD []) r h
        · have hcur' : pyTruthy p.cursor = false := by simpa using hcur
          rw [retrieve_loop_cons_stop loc b e p ps c acc h200 hne hcur'] at hr
          simp at hr
          simp [hr, mkBody]
    · rw [retrieve_loop_cons_err loc b e p ps c acc h200] at hr
      simp at hr
      simp [hr, mkBody]

/-- The formalized Claim C2 is false as stated: with a first call that
succeeds with zero orders (a legal success page) and a second call
returning status 500, the run raises `IndexError` instead of returning
the accumulated (empty) order list. -/
theorem c2_counterexample :
    ¬ (∀ (good : List (Page String)) (bad : Page String) (rest : List (Page String))
          (loc : String) (b e : Option String),
        (∀ p ∈ good, p.status = 200 ∧ pyTruthy p.cursor = true) →
        bad.status ≠ 200 →
        (retrieve_all_orders loc b e (good ++ bad :: rest)).2
          = Except.ok (pagesOrders good)) := by
  intro h
  have hinst := h [⟨200, some [], some "c"⟩] ⟨500, none, none⟩ [] "L" none none
    (by decide) (by decide)
  exact absurd hinst (by decide)

/-- Claim C2 (amended).  Provided every successful call before the
failing one contributes at least one order and supplies a truthy cursor
(so the failing call is reached and `print(orders[-1])` cannot raise), a
non-success status stops the pagination immediately — exactly one more
request than the successful calls is ever issued — and the orders
accumulated from the successful calls are returned as a normal value,
with no exception. -/
theorem c2_error_returns_partial {α : Type} (loc : String) (b e : Option String)
    (good : List (Page α)) (bad : Page α) (rest : List (Page α))
    (hg : ∀ p ∈ good, goodPage p) (hbad : bad.status ≠ 200) :
    (retrieve_all_orders loc b e (good ++ bad :: rest)).2 = Except.ok (pagesOrders good)
    ∧ (retrieve_all_orders loc b e (good ++ bad :: rest)).1.length = good.length + 1 := by
  unfold retrieve_all_orders
  rw [retrieve_loop_goodPages loc b e good (bad :: rest) none [] hg]
  rw [retrieve_loop_cons_err loc b e bad rest (chainCursor none good) ([] ++ pagesOrders good) hbad]
  simp [reqTrace_length]

/-- Witness for C2 (amended) at the stub of the specification: call 1
succeeds with two orders and a cursor, call 2 fails with status 500; the
result is call 1's orders and exactly 2 requests were issued. -/
theorem c2_error_returns_partial_witness :
    (retrieve_all_orders "L" none none
        ([⟨200, some ["a1", "a2"], some "c1"⟩] ++ ⟨500, none, none⟩
            :: [⟨200, some ["z"], none⟩])).2
      = Except.ok ["a1", "a2"]
    ∧ (retrieve_all_orders "L" none none
        ([⟨200, some ["a1", "a2"], some "c1"⟩] ++ ⟨500, none, none⟩
            :: [⟨200, some ["z"], none⟩])).1.length = 2 := by
  have h := c2_error_returns_partial "L" none none
    [⟨200, some ["a1", "a2"], some "c1"⟩] ⟨500, none, none⟩ [⟨200, some ["z"], none⟩]
    (by decide) (by decide)
  simpa [pagesOrders] using h

/-- The formalized Claim C8 is false as stated: when the first call
returns a cursor but no orders, `print(orders[-1])` raises before the
second call, so only one request is made and nothing is returned — the
two-call scenario needs every call to contribute at least one order. -/
theorem c8_counterexample :
    ¬ (∀ (o1 o2 : List String) (c1 : String), c1 ≠ "" →
        (retrieve_all_orders "L" none none
            [⟨200, some o1, some c1⟩, ⟨200, some o2, none⟩]).1.length = 2
        ∧ (retrieve_all_orders "L" none none
            [⟨200, some o1, some c1⟩, ⟨200, some o2, none⟩]).2
          = Except.ok (o1 ++ o2)) := by
  intro h
  have hinst := h [] ["b"] "c1" (by decide)
  exact absurd hinst.1 (by decide)

/-- Claim C8 (amended).  Provided every consumed page carries at least
one order, pagination requests each page with the fixed limit 500 and
the location filter; the first request carries no cursor and each later
request carries exactly the cursor of the previous response (the request
trace); the loop stops at the first response whose cursor is falsy,
having issued one request per consumed page, and returns the
concatenation of all consumed pages' orders in call order. -/
theorem c8_pagination_terminates {α : Type} (loc : String) (b e : Option String)
    (good : List (Page α)) (lastPage : Page α) (rest : List (Page α))
    (hg : ∀ p ∈ good, goodPage p) (h200 : lastPage.status = 200)
    (hcur : pyTruthy lastPage.cursor = false)
    (hord : (lastPage.orders.getD []).isEmpty = false) :
    (retrieve_all_orders loc b e (good ++ lastPage :: rest)).1
        = reqTrace loc b e none (good ++ [lastPage])
    ∧ (retrieve_all_orders loc b e (good ++ lastPage :: rest)).1.length = good.length + 1
    ∧ (retrieve_all_orders loc b e (good ++ lastPage :: rest)).2
        = Except.ok (pagesOrders (good ++ [lastPage]))
    ∧ (∀ (stub : List (Page α)) (c : Option String) (acc : List α),
        ∀ r ∈ (retrieve_loop loc b e stub c acc).1,
          r.limit = 500 ∧ r.location_ids = [loc]) := by
  have hne : (([] ++ pagesOrders good) ++ lastPage.orders.getD []).isEmpty = false := by
    have : lastPage.orders.getD [] ≠ [] := by simpa using hord
    simp [List.append_eq_nil]
    intro _
    exact fun hx => this hx
  have hmain : retrieve_all_orders loc b e (good ++ lastPage :: rest)
      = (reqTrace loc b e none good
            ++ [mkBody loc b e (chainCursor none good)],
         Except.ok (([] ++ pagesOrders good) ++ lastPage.orders.getD [])) := by
    unfold retrieve_all_orders
    rw [retrieve_loop_goodPages loc b e good (lastPage :: rest) none [] hg]
    rw [retrieve_loop_cons_stop loc b e lastPage rest (chainCursor none good)
      ([] ++ pagesOrders good) h200 hne hcur]
  refine ⟨?_, ?_, ?_, retrieve_loop_limit loc b e⟩
  · rw [hmain, reqTrace_append_one]
  · rw [hmain]
    simp [reqTrace_length]
  · rw [hmain]
    simp [pagesOrders]

/-- Witness for C8 at the specification's stub: a cursor on call 1, none
on call 2 — exactly 2 requests, the second carrying cursor `c1`, and the
two calls' orders concatenated in call order. -/
theorem c8_pagination_terminates_witness :
    (retrieve_all_orders "L" none none
        ([⟨200, some ["a1"], some "c1"⟩] ++ ⟨200, some ["b1"], none⟩ :: ([] : List (Page String)))).1
      = [{ location_ids := ["L"], limit := 500, query := none, cursor := none },
         { location_ids := ["L"], limit := 500, query := none, cursor := some "c1" }]
    ∧ (retrieve_all_orders "L" none none
        ([⟨200, some ["a1"], some "c1"⟩] ++ ⟨200, some ["b1"], none⟩ :: ([] : List (Page String)))).1.length = 2
    ∧ (retrieve_all_orders "L" none none
        ([⟨200, some ["a1"], some "c1"⟩] ++ ⟨200, some ["b1"], none⟩ :: ([] : List (Page String)))).2
      = Except.ok ["a1", "b1"] := by
  have h := c8_pagination_terminates "L" none none
    [⟨200, some ["a1"], some "c1"⟩] ⟨200, some ["b1"], none⟩ []
    (by decide) (by decide) (by decide) (by decide)
  refine ⟨?_, ?_, ?_⟩
  · have := h.1
    simpa [reqTrace, chainCursor, mkBody, pyTruthy] using this
  · exact h.2.1
  · have := h.2.2.1
    simpa [pagesOrders] using this

/-- Claim C10.  A successful response carrying no orders while the
accumulator is still empty (for example the first page of an empty
result set) makes `print(orders[-1])` raise `IndexError` instead of
returning the empty accumulation; and the indexing is safe whenever
every successful page contributes at least one order, in which case the
loop never produces that error. -/
theorem c10_indexerror_on_empty_page :
    (retrieve_all_orders "L" none none [⟨200, some ([] : List String), some "c"⟩]).2
        = Except.error "IndexError: list index out of range"
    ∧ ∀ (α : Type) (loc : String) (b e : Option String) (stub : List (Page α)),
        (∀ p ∈ stub, p.status = 200 → (p.orders.getD []).isEmpty = false) →
        ∀ (c : Option String) (acc : List α),
          (retrieve_loop loc b e stub c acc).2
            ≠ Except.error "IndexError: list index out of range" := by
  constructor
  · decide
  · intro α loc b e stub
    induction stub with
    | nil =>
      intro _ c acc
      simp [retrieve_loop]
    | cons p ps ih =>
      intro hstub c acc
      by_cases h200 : p.status = 200
      · have hord := hstub p (List.mem_cons_self p ps) h200
        have hne : (acc ++ p.orders.getD []).isEmpty = false := by
          have : p.orders.getD [] ≠ [] := by simpa using hord
          simp [List.append_eq_nil]
          intro _
          exact fun hx => this hx
        by_cases hcur : pyTruthy p.cursor = true
        · rw [retrieve_loop_cons_continue loc b e p ps c acc h200 hne hcur]
          exact ih (fun q hq => hstub q (List.mem_cons_of_mem p hq)) p.cursor
            (acc ++ p.orders.getD [])
        · have hcur' : pyTruthy p.cursor = false := by simpa using hcur
          rw [retrieve_loop_cons_stop loc b e p ps c acc h200 hne hcur']
          simp
      · rw [retrieve_loop_cons_err loc b e p ps c acc h200]
        simp

/-- Witness for C10's safety half: with a single successful non-empty
page the loop does not raise the indexing error. -/
theorem c10_indexerror_on_empty_page_witness :
    (retrieve_loop "L" none none [⟨200, some ["o"], none⟩] none ([] : List String)).2
      ≠ Except.error "IndexError: list index out of range" :=
  c10_indexerror_on_empty_page.2 String "L" none none
    [⟨200, some ["o"], none⟩] (by decide) none []

/-- First-occurrence deduplication is an admissible set enumeration. -/
theorem dedupEnum_SetEnum : SetEnum dedupEnum :=
  fun l => ⟨l.nodup_dedup, fun _ => List.mem_dedup⟩

/-- Counting a tuple key in the pairs anchored at `x`. -/
theorem count_map_pair (x a b : String) (xs : List String) :
    (xs.map (fun y => (x, y))).count (a, b) = if x = a then xs.count b else 0 := by
  induction xs with
  | nil => simp
  | cons y ys ih =>
    simp only [List.map_cons, List.count_cons, ih]
    by_cases hxa : x = a
    · subst hxa
      by_cases hyb : y = b
      · subst hyb
        simp
      · simp [hyb, Prod.ext_iff]
    · simp [hxa, Prod.ext_iff]

/-- Two distinct members force length at least two. -/
theorem two_le_length_of_mem_ne {l : List String} {A B : String}
    (hA : A ∈ l) (hB : B ∈ l) (h : A ≠ B) : 2 ≤ l.length := by
  match l with
  | [] => cases hA
  | [x] =>
    rw [List.mem_singleton] at hA hB
    exact absurd (hA.trans hB.symm) h
  | x :: y :: rest => simp [Nat.succ_le_succ, Nat.le_add_left]

/-- On a duplicate-free list, the two orientations of a pair of names
are together counted once in `combinations2` exactly when both names
occur and differ, and never otherwise. -/
theorem comb2_count_unordered :
    ∀ (s : List String), s.Nodup → ∀ (A B : String),
      (combinations2 s).count (A, B) + (combinations2 s).count (B, A)
        = if A ∈ s ∧ B ∈ s ∧ A ≠ B then 1 else 0 := by
  intro s
  induction s with
  | nil =>
    intro _ A B
    simp [combinations2]
  | cons x xs ih =>
    intro hnd A B
    obtain ⟨hx, hxs⟩ := List.nodup_cons.mp hnd
    have hih := ih hxs A B
    have hcntA : xs.count A = if A ∈ xs then 1 else 0 := by
      by_cases hA : A ∈ xs
      · simp [List.count_eq_one_of_mem hxs hA, hA]
      · simp [List.count_eq_zero_of_not_mem hA, hA]
    have hcntB : xs.count B = if B ∈ xs then 1 else 0 := by
      by_cases hB : B ∈ xs
      · simp [List.count_eq_one_of_mem hxs hB, hB]
      · simp [List.count_eq_zero_of_not_mem hB, hB]
    show ((xs.map (fun y => (x, y)) ++ combinations2 xs).count (A, B))
        + ((xs.map (fun y => (x, y)) ++ combinations2 xs).count (B, A)) = _
    rw [List.count_append, List.count_append, count_map_pair, count_map_pair,
      hcntA, hcntB]
    by_cases hxA : x = A <;> by_cases hxB : x = B <;>
      by_cases hAxs : A ∈ xs <;> by_cases hBxs : B ∈ xs <;>
      by_cases hAB : A = B <;>
      simp_all [List.mem_cons, eq_comm] <;> omega

/-- The per-order pair list of `analyze_pairs` counts the two
orientations of a pair of names together once exactly when both names
occur in the order's item list and differ. -/
theorem pairsOfOrder_count_unordered (σ : List String → List String)
    (hσ : SetEnum σ) (items : List String) (A B : String) :
    (pairsOfOrder σ items).count (A, B) + (pairsOfOrder σ items).count (B, A)
      = if A ∈ items ∧ B ∈ items ∧ A ≠ B then 1 else 0 := by
  unfold pairsOfOrder
  by_cases hlen : 2 ≤ items.length
  · rw [if_pos hlen, comb2_count_unordered (σ items) (hσ items).1 A B]
    simp only [(hσ items).2]
  · rw [if_neg hlen]
    have hcond : ¬ (A ∈ items ∧ B ∈ items ∧ A ≠ B) := fun hc =>
      hlen (two_le_length_of_mem_ne hc.1 hc.2.1 hc.2.2)
    simp [hcond]

/-- Pointwise addition of two mapped sums. -/
theorem sum_map_add {γ : Type} (l : List γ) (f g : γ → Nat) :
    (l.map f).sum + (l.map g).sum = (l.map (fun x => f x + g x)).sum := by
  induction l with
  | nil => rfl
  | cons x xs ih =>
    simp only [List.map_cons, List.sum_cons, ← ih]
    omega

/-- A sum of indicators is a count. -/
theorem sum_map_ite_eq_countP {γ : Type} (l : List γ) (P : γ → Prop)
    [DecidablePred P] :
    (l.map (fun x => if P x then 1 else 0)).sum = l.countP (fun x => decide (P x)) := by
  induction l with
  | nil => rfl
  | cons x xs ih =>
    by_cases h : P x <;> simp [List.countP_cons, h, ih, Nat.add_comm]

/-- For any admissible set enumeration, the two orientations of a pair
of names together receive from `analyze_pairs` exactly the number of
order groups whose item list contains both (distinct) names. -/
theorem analyze_pairs_count_unordered (σ : List String → List String)
    (hσ : SetEnum σ) (df : List TransactionRow) (A B : String) :
    analyze_pairs_count σ df (A, B) + analyze_pairs_count σ df (B, A)
      = (orderIds df).countP (fun oid =>
          decide (A ∈ groupItems df oid ∧ B ∈ groupItems df oid ∧ A ≠ B)) := by
  unfold analyze_pairs_count
  rw [sum_map_add]
  have hfun : (fun oid => (pairsOfOrder σ (groupItems df oid)).count (A, B)
        + (pairsOfOrder σ (groupItems df oid)).count (B, A))
      = fun oid =>
          if A ∈ groupItems df oid ∧ B ∈ groupItems df oid ∧ A ≠ B then 1 else 0 :=
    funext fun oid => pairsOfOrder_count_unordered σ hσ (groupItems df oid) A B
  rw [hfun, sum_map_ite_eq_countP]

/-- The script-level `item_pairs` counter of pull_data_and_analyze.py
assigns each unordered pair of distinct names, across both orientations,
exactly its co-occurrence count, for any admissible set enumeration. -/
theorem item_pairs_count_unordered (σ : List String → List String)
    (hσ : SetEnum σ) (t : List (List String)) (A B : String) :
    unordered_pairs_count σ t A B = co_occurrences t A B := by
  unfold unordered_pairs_count item_pairs_count co_occurrences
  rw [sum_map_add]
  have hfun : (fun items => (combinations2 (σ items)).count (A, B)
        + (combinations2 (σ items)).count (B, A))
      = fun items => if A ∈ items ∧ B ∈ items ∧ A ≠ B then 1 else 0 := by
    funext items
    rw [comb2_count_unordered (σ items) (hσ items).1 A B]
    simp only [(hσ items).2]
  rw [hfun, sum_map_ite_eq_countP]

/-- Claim C7.  Permuting the item list of any single order leaves the
global count of every unordered pair of names unchanged, for every
admissible set enumeration — even when the two runs enumerate their sets
differently. -/
theorem c7_pair_counts_permutation_invariant
    (σ σ' : List String → List String) (hσ : SetEnum σ) (hσ' : SetEnum σ')
    (pre post : List (List String)) (l l' : List String) (hperm : l.Perm l')
    (A B : String) :
    unordered_pairs_count σ' (pre ++ l' :: post) A B
      = unordered_pairs_count σ (pre ++ l :: post) A B := by
  rw [item_pairs_count_unordered σ' hσ', item_pairs_count_unordered σ hσ]
  have hsplit : ∀ (m : List String),
      co_occurrences (pre ++ m :: post) A B
        = co_occurrences pre A B
            + ((if A ∈ m ∧ B ∈ m ∧ A ≠ B then 1 else 0) + co_occurrences post A B) := by
    intro m
    unfold co_occurrences
    rw [List.countP_append, List.countP_cons]
    simp [Nat.add_comm, Nat.add_left_comm]
  rw [hsplit l, hsplit l']
  have hiff : (A ∈ l' ∧ B ∈ l' ∧ A ≠ B) ↔ (A ∈ l ∧ B ∈ l ∧ A ≠ B) := by
    simp [hperm.mem_iff]
  rw [if_congr hiff rfl rfl]

/-- Witness for C7: swapping the first transaction's list [A, B, A] to
[B, A, A] leaves the unordered count of the pair of A and B unchanged. -/
theorem c7_pair_counts_permutation_invariant_witness :
    unordered_pairs_count dedupEnum [["B", "A", "A"], ["C"]] "A" "B"
      = unordered_pairs_count dedupEnum [["A", "B", "A"], ["C"]] "A" "B" :=
  c7_pair_counts_permutation_invariant dedupEnum dedupEnum
    dedupEnum_SetEnum dedupEnum_SetEnum
    [] [["C"]] ["A", "B", "A"] ["B", "A", "A"] (by decide) "A" "B"

/-- The formalized Claim C5 is false as stated: the counter keys are the
tuples produced by iterating Python sets, whose order is not specified,
and under the admissible first-occurrence enumeration the two orders
{A, B} listed in opposite row orders split their co-occurrence between
the keys (A, B) and (B, A). -/
theorem c5_counterexample :
    ¬ (∀ (σ : List String → List String), SetEnum σ →
        ∀ (df : List TransactionRow) (A B : String), A ≠ B →
          ¬(0 < analyze_pairs_count σ df (A, B)
              ∧ 0 < analyze_pairs_count σ df (B, A))) := by
  intro h
  exact h dedupEnum dedupEnum_SetEnum df_two_orientations "A" "B" (by decide)
    ⟨by decide, by decide⟩

/-- Claim C5 (amended).  The counter is keyed by tuples whose
orientation depends on the run's set-iteration order, so a pair's
occurrences may split between the keys (A, B) and (B, A); however, for
every admissible set enumeration the combined count of the two
orientations equals the number of order groups whose item list contains
both (distinct) names — so no occurrence is lost or double counted — and
`ensure_latte_first` keeps every tuple's underlying unordered pair,
keeps every row's count value, and therefore neither merges nor splits
pairs that are distinct as unordered pairs. -/
theorem c5_unordered_pair_accumulation :
    (∀ (σ : List String → List String), SetEnum σ →
      ∀ (df : List TransactionRow) (A B : String),
        analyze_pairs_count σ df (A, B) + analyze_pairs_count σ df (B, A)
          = (orderIds df).countP (fun oid =>
              decide (A ∈ groupItems df oid ∧ B ∈ groupItems df oid ∧ A ≠ B)))
    ∧ (∀ p : String × String, pairMultiset (ensure_latte_first p) = pairMultiset p)
    ∧ (∀ p q : String × String,
        pairMultiset (ensure_latte_first p) = pairMultiset (ensure_latte_first q)
          ↔ pairMultiset p = pairMultiset q)
    ∧ (∀ df : List PairRow,
        (apply_ensure_latte_first df).map PairRow.item_count
          = df.map PairRow.item_count) := by
  have hpm : ∀ p : String × String,
      pairMultiset (ensure_latte_first p) = pairMultiset p := by
    intro p
    unfold ensure_latte_first pairMultiset
    by_cases h : p.2 == "Latte"
    · rw [if_pos h]
      exact Multiset.pair_comm p.2 p.1
    · rw [if_neg (by simpa using h)]
  refine ⟨fun σ hσ df A B => analyze_pairs_count_unordered σ hσ df A B, hpm, ?_, ?_⟩
  · intro p q
    rw [hpm p, hpm q]
  · intro df
    simp [apply_ensure_latte_first]

/-- Witness for C5 (amended): on the two-orientation table the combined
count of the pair of A and B is 2, matching its two co-occurring
groups. -/
theorem c5_unordered_pair_accumulation_witness :
    analyze_pairs_count dedupEnum df_two_orientations ("A", "B")
        + analyze_pairs_count dedupEnum df_two_orientations ("B", "A") = 2
    ∧ (orderIds df_two_orientations).countP (fun oid =>
        decide ("A" ∈ groupItems df_two_orientations oid
          ∧ "B" ∈ groupItems df_two_orientations oid ∧ "A" ≠ "B")) = 2 := by
  have h := c5_unordered_pair_accumulation.1 dedupEnum dedupEnum_SetEnum
    df_two_orientations "A" "B"
  exact ⟨h.trans (by decide), by decide⟩

/-- Claim C6.  `split_latte_pairs` partitions the pair table into the
rows whose pair contains the anchor item and those whose pair does not:
both parts preserve the original row order (they are sublists), no row
of one part occurs in the other, and the two parts together are a
permutation of the original table — nothing duplicated, nothing lost. -/
theorem c6_split_latte_partition (df : List PairRow) :
    (split_latte_pairs df).1.Sublist df
    ∧ (split_latte_pairs df).2.Sublist df
    ∧ (∀ r ∈ (split_latte_pairs df).1, r ∉ (split_latte_pairs df).2)
    ∧ ((split_latte_pairs df).1 ++ (split_latte_pairs df).2).Perm df := by
  simp only [split_latte_pairs]
  refine ⟨List.filter_sublist df, List.filter_sublist df, ?_,
    List.filter_append_perm (fun r => contains_latte r.pair) df⟩
  intro r hr hr2
  rw [List.mem_filter] at hr hr2
  have h1 := hr.2
  have h2 := hr2.2
  simp only [Bool.not_eq_true'] at h2
  rw [h1] at h2
  cases h2

/-- Witness for C6 at a concrete pair table. -/
theorem c6_split_latte_partition_witness :
    (split_latte_pairs sample_pair_table).1.Sublist sample_pair_table
    ∧ (split_latte_pairs sample_pair_table).2.Sublist sample_pair_table
    ∧ (∀ r ∈ (split_latte_pairs sample_pair_table).1,
        r ∉ (split_latte_pairs sample_pair_table).2)
    ∧ ((split_latte_pairs sample_pair_table).1
        ++ (split_latte_pairs sample_pair_table).2).Perm sample_pair_table :=
  c6_split_latte_partition sample_pair_table

/-- Rows whose predicate is false on missing timestamps are counted the
same whether or not the missing-timestamp rows are first removed. -/
theorem countP_filter_isSome {T : Type} (df : List (TimeRow T)) (p : TimeRow T → Bool)
    (hp : ∀ r : TimeRow T, r.created_at = none → p r = false) :
    (df.filter (fun r => r.created_at.isSome)).countP p = df.countP p := by
  induction df with
  | nil => rfl
  | cons r rs ih =>
    cases h : r.created_at with
    | none => simp [List.filter_cons, List.countP_cons, h, hp r h, ih]
    | some t => simp [List.filter_cons, List.countP_cons, h, ih]

/-- Claim C9.  A creation timestamp that fails to parse is coerced to
the missing value (`to_datetime_coerce` is total: a missing or
unparsable cell yields `none`, never an exception), and rows with a
missing timestamp are excluded from all three temporal groupings: each
grouped count computed on the parsable rows alone equals the count
computed on the full table, for every key. -/
theorem c9_unparsable_rows_excluded {T : Type} (tz : T → T) (hm : T → String)
    (dn : T → String) (yr : T → Int) (df : List (TimeRow T))
    (k1 : String) (k2 : String × String) (k3 : Int × String × String) :
    (∀ (parse : String → Option T) (s : String),
        to_datetime_coerce parse (some s) = parse s)
    ∧ (∀ parse : String → Option T, to_datetime_coerce parse none = none)
    ∧ purchases_by_time tz hm (df.filter (fun r => r.created_at.isSome)) k1
        = purchases_by_time tz hm df k1
    ∧ purchases_td tz hm dn (df.filter (fun r => r.created_at.isSome)) k2
        = purchases_td tz hm dn df k2
    ∧ purchases_tdy tz hm dn yr (df.filter (fun r => r.created_at.isSome)) k3
        = purchases_tdy tz hm dn yr df k3 := by
  refine ⟨fun _ _ => rfl, fun _ => rfl, ?_, ?_, ?_⟩
  · exact countP_filter_isSome df _ (fun r h => by
      simp [time_et, created_at_et, h])
  · exact countP_filter_isSome df _ (fun r h => by
      simp [time_et, day_of_week, created_at_et, h])
  · exact countP_filter_isSome df _ (fun r h => by
      simp [time_et, day_of_week, year_et, created_at_et, h])

end Waypoint
